import Mathlib

/-!
# Verification of the agent-news-wire ledger programs

A shallow embedding of the three Anchor programs of the repository
(`programs/subscription/src/lib.rs`, `programs/publisher/src/lib.rs`,
`programs/alerts/src/lib.rs`) and proofs about them.

Modelling conventions:
* `u64`/`u32`/`u16`/`u8`/`u128` values are `Nat` with explicit bounds;
  `checked_add`/`checked_sub`/`checked_mul`/`checked_div` return `Option Nat`
  exactly as Rust's checked arithmetic does at the relevant width, the
  unchecked Rust `+= 1` on a `u64` counter is wrapping addition modulo `2^64`
  (release-mode two's-complement semantics), and the Rust `as u64` narrowing
  cast from `u128` is reduction modulo `2^64`.
* `Pubkey` is abstracted to `Nat`; a `[u8; 32]` content hash is likewise an
  opaque `Nat`.  The clock collaborator is an explicit `now : Int` argument.
* Each Anchor instruction is a function from the accounts it declares to
  `Except ErrorCode <new account states>`; returning `.error` models the
  transaction aborting with no mutation persisted (Anchor rolls back on error),
  and `require!(c, e)` is `if ¬ c then .error e`.
-/

/-- 2^64 - 1, the largest `u64` value. -/
def U64_MAX : Nat := 2 ^ 64 - 1

/-- 2^128 - 1, the largest `u128` value. -/
def U128_MAX : Nat := 2 ^ 128 - 1

/-- 2^16 - 1, the largest `u16` value. -/
def U16_MAX : Nat := 2 ^ 16 - 1

/-- Rust `u64::checked_add`. -/
def checked_add64 (a b : Nat) : Option Nat :=
  if a + b ≤ U64_MAX then some (a + b) else none

/-- Rust `u64::checked_sub` (on `Nat`, failure exactly when `b > a`). -/
def checked_sub64 (a b : Nat) : Option Nat :=
  if b ≤ a then some (a - b) else none

/-- Rust `u128::checked_mul`. -/
def checked_mul128 (a b : Nat) : Option Nat :=
  if a * b ≤ U128_MAX then some (a * b) else none

/-- Rust `u128::checked_div` (fails only on division by zero). -/
def checked_div128 (a b : Nat) : Option Nat :=
  if b = 0 then none else some (a / b)

/-- The Rust `as u64` narrowing cast from a wider integer. -/
def cast_u64 (a : Nat) : Nat := a % 2 ^ 64

/-- Wrapping of an unchecked `u64` `+=` (release-mode Rust semantics). -/
def wrap64 (a : Nat) : Nat := a % 2 ^ 64

/-- Account addresses, abstracted (the storage-addressing collaborator). -/
abbrev Pubkey := Nat

namespace subscription_registry

/-- `ErrorCode` of `programs/subscription/src/lib.rs`. -/
inductive ErrorCode where
  | InvalidAmount
  | InsufficientBalance
  | TooManyChannels
  | SubscriberInactive
  | Overflow
  | Unauthorized
  | InvalidMint
deriving DecidableEq, Repr

/-- `ProtocolConfig` account of the subscription program. -/
structure ProtocolConfig where
  authority : Pubkey
  usdc_mint : Pubkey
  treasury : Pubkey
  price_per_alert : Nat      -- u64
  treasury_fee_bps : Nat     -- u16
  total_subscribers : Nat    -- u64
  total_alerts_delivered : Nat -- u64
  total_revenue : Nat        -- u64
  bump : Nat                 -- u8
deriving DecidableEq, Repr

/-- `Subscriber` account of the subscription program. -/
structure Subscriber where
  owner : Pubkey
  channels : Nat             -- u32 bitmap
  balance : Nat              -- u64
  alerts_received : Nat      -- u64
  created_at : Int           -- i64
  active : Bool
  bump : Nat                 -- u8
  vault_bump : Nat           -- u8
deriving DecidableEq, Repr

/-- `DeliveryReceipt` account of the subscription program. -/
structure DeliveryReceipt where
  subscriber : Pubkey
  alert_hash : Nat           -- [u8; 32] digest, opaque
  amount_charged : Nat       -- u64
  timestamp : Int            -- i64
  bump : Nat                 -- u8
deriving DecidableEq, Repr

/-- The `channels_to_u32` helper: packs up to 4 bytes into a `u32` bitmap,
`result |= (byte as u32) << (i * 8)` over the enumerated list. -/
def channels_to_u32 (channels : List Nat) : Nat :=
  channels.enum.foldl (fun result p => result ||| (p.2 <<< (p.1 * 8))) 0

/-- `create_subscriber`: `require!(channels.len() <= 4)`, then the fresh
`Subscriber` with balance 0 and `active = true` (the vault is opened by the
custody collaborator) and the config's `total_subscribers += 1`
(unchecked). -/
def create_subscriber (config : ProtocolConfig) (owner : Pubkey)
    (channels : List Nat) (now : Int) :
    Except ErrorCode (Subscriber × ProtocolConfig) :=
  if channels.length > 4 then .error .TooManyChannels
  else
    .ok ({ owner := owner, channels := channels_to_u32 channels,
           balance := 0, alerts_received := 0, created_at := now,
           active := true, bump := 0, vault_bump := 0 },
         { config with
             total_subscribers := wrap64 (config.total_subscribers + 1) })

/-- `deposit`: `require!(amount > 0)`, then `balance.checked_add(amount)`
(the token transfer into the vault is the custody collaborator). -/
def deposit (s : Subscriber) (amount : Nat) : Except ErrorCode Subscriber :=
  if amount = 0 then .error .InvalidAmount
  else
    match checked_add64 s.balance amount with
    | none => .error .Overflow
    | some b => .ok { s with balance := b }

/-- `withdraw`: `require!(balance >= amount)`, transfer out (collaborator),
then `balance.checked_sub(amount)`. -/
def withdraw (s : Subscriber) (amount : Nat) : Except ErrorCode Subscriber :=
  if s.balance < amount then .error .InsufficientBalance
  else
    match checked_sub64 s.balance amount with
    | none => .error .Overflow
    | some b => .ok { s with balance := b }

/-- The fee computation inlined in `charge_for_alert` (lines 140-147):
`treasury_fee = ((price as u128).checked_mul(bps as u128)?.checked_div(10000)?) as u64`
and `publisher_amount = price.checked_sub(treasury_fee)?`.  Note the `as u64`
is a plain truncating cast in the source, modelled by `cast_u64`. -/
def fee_split (price bps : Nat) : Except ErrorCode (Nat × Nat) :=
  match checked_mul128 price bps with
  | none => .error .Overflow
  | some prod =>
    match checked_div128 prod 10000 with
    | none => .error .Overflow
    | some q =>
      let treasury_fee := cast_u64 q
      match checked_sub64 price treasury_fee with
      | none => .error .Overflow
      | some publisher_amount => .ok (treasury_fee, publisher_amount)

/-- `charge_for_alert`: guards `active` and `balance >= price_per_alert`,
computes the fee split, deducts the full price (checked), increments
`alerts_received` (unchecked `+=`), writes the `DeliveryReceipt`
(`delivery.subscriber = subscriber.key()`, modelled by the owner-derived
address), and updates the config totals (`total_alerts_delivered` unchecked
`+=`, `total_revenue` checked). -/
def charge_for_alert (config : ProtocolConfig) (s : Subscriber)
    (alert_hash : Nat) (now : Int) :
    Except ErrorCode (Subscriber × DeliveryReceipt × ProtocolConfig) :=
  if !s.active then .error .SubscriberInactive
  else if s.balance < config.price_per_alert then .error .InsufficientBalance
  else
    let total_amount := config.price_per_alert
    match fee_split total_amount config.treasury_fee_bps with
    | .error e => .error e
    | .ok (_treasury_fee, _publisher_amount) =>
      match checked_sub64 s.balance total_amount with
      | none => .error .Overflow
      | some newBalance =>
        let s' : Subscriber :=
          { s with balance := newBalance,
                   alerts_received := wrap64 (s.alerts_received + 1) }
        let receipt : DeliveryReceipt :=
          { subscriber := s.owner, alert_hash := alert_hash,
            amount_charged := total_amount, timestamp := now, bump := 0 }
        match checked_add64 config.total_revenue total_amount with
        | none => .error .Overflow
        | some newRevenue =>
          .ok (s', receipt,
            { config with
                total_alerts_delivered :=
                  wrap64 (config.total_alerts_delivered + 1),
                total_revenue := newRevenue })

/-- Run a list of `charge_for_alert` attempts (each element an
`(alert_hash, now)` pair) in order, a failed call leaving the state
untouched; the third component accumulates the amounts charged by the
successful calls (each receipt's `amount_charged`). -/
def runCharges (config : ProtocolConfig) (s : Subscriber) :
    List (Nat × Int) → Subscriber × ProtocolConfig × Nat
  | [] => (s, config, 0)
  | (h, t) :: rest =>
    match charge_for_alert config s h t with
    | .ok (s', receipt, config') =>
      let r := runCharges config' s' rest
      (r.1, r.2.1, receipt.amount_charged + r.2.2)
    | .error _ => runCharges config s rest

end subscription_registry

namespace publisher_registry

/-- `ErrorCode` of `programs/publisher/src/lib.rs`. -/
inductive ErrorCode where
  | NameTooLong
  | UriTooLong
  | PublisherInactive
  | PublisherSlashed
  | InsufficientStake
  | Overflow
  | Unauthorized
deriving DecidableEq, Repr

/-- `PublisherRegistry` account of the publisher program. -/
structure PublisherRegistry where
  authority : Pubkey
  usdc_mint : Pubkey
  min_stake : Nat            -- u64
  publisher_share_bps : Nat  -- u16
  total_publishers : Nat     -- u64
  total_payouts : Nat        -- u64
  bump : Nat                 -- u8
deriving DecidableEq, Repr

/-- `Publisher` account of the publisher program. -/
structure Publisher where
  owner : Pubkey
  name : String              -- max 64 bytes
  metadata_uri : String      -- max 200 bytes
  stake : Nat                -- u64
  reputation_score : Nat     -- u16, 0-1000
  alerts_submitted : Nat     -- u64
  alerts_accepted : Nat      -- u64
  total_earnings : Nat       -- u64
  registered_at : Int        -- i64
  active : Bool
  slashed : Bool
  bump : Nat                 -- u8
deriving DecidableEq, Repr

/-- `register_publisher`: length guards, stake transfer of `min_stake`
(collaborator), then the fresh `Publisher` with reputation 500 and the
registry's `total_publishers += 1` (unchecked). -/
def register_publisher (reg : PublisherRegistry) (owner : Pubkey)
    (name metadata_uri : String) (now : Int) :
    Except ErrorCode (Publisher × PublisherRegistry) :=
  if name.utf8ByteSize > 64 then .error .NameTooLong
  else if metadata_uri.utf8ByteSize > 200 then .error .UriTooLong
  else
    .ok ({ owner := owner, name := name, metadata_uri := metadata_uri,
           stake := reg.min_stake, reputation_score := 500,
           alerts_submitted := 0, alerts_accepted := 0, total_earnings := 0,
           registered_at := now, active := true, slashed := false, bump := 0 },
         { reg with total_publishers := wrap64 (reg.total_publishers + 1) })

/-- `record_alert_submission`: `alerts_submitted += 1` (unchecked); if
accepted, `alerts_accepted += 1` (unchecked) and
`reputation_score.saturating_add(10).min(1000)` (u16 saturation at 65535);
if rejected, `reputation_score.saturating_sub(20).max(0)` (`Nat`
subtraction is exactly `u16::saturating_sub`). -/
def record_alert_submission (accepted : Bool) (p : Publisher) : Publisher :=
  let p := { p with alerts_submitted := wrap64 (p.alerts_submitted + 1) }
  if accepted then
    { p with alerts_accepted := wrap64 (p.alerts_accepted + 1),
             reputation_score := min (min (p.reputation_score + 10) U16_MAX) 1000 }
  else
    { p with reputation_score := max (p.reputation_score - 20) 0 }

/-- The share computation inlined in `distribute_revenue` (lines 115-119):
`publisher_amount = ((amount as u128).checked_mul(bps as u128)?.checked_div(10000)?) as u64`.
As in `fee_split`, the final `as u64` is a plain truncating cast. -/
def publisher_share (amount bps : Nat) : Except ErrorCode Nat :=
  match checked_mul128 amount bps with
  | none => .error .Overflow
  | some prod =>
    match checked_div128 prod 10000 with
    | none => .error .Overflow
    | some q => .ok (cast_u64 q)

/-- `distribute_revenue`: guards `active` and `!slashed`, computes the
publisher share, transfers it from the revenue pool (collaborator), then
`total_earnings.checked_add` and `total_payouts.checked_add`.  The third
component of the result is the `publisher_amount` transferred. -/
def distribute_revenue (reg : PublisherRegistry) (p : Publisher)
    (amount : Nat) :
    Except ErrorCode (Publisher × PublisherRegistry × Nat) :=
  if !p.active then .error .PublisherInactive
  else if p.slashed then .error .PublisherSlashed
  else
    match publisher_share amount reg.publisher_share_bps with
    | .error e => .error e
    | .ok publisher_amount =>
      match checked_add64 p.total_earnings publisher_amount with
      | none => .error .Overflow
      | some newEarnings =>
        match checked_add64 reg.total_payouts publisher_amount with
        | none => .error .Overflow
        | some newPayouts =>
          .ok ({ p with total_earnings := newEarnings },
               { reg with total_payouts := newPayouts },
               publisher_amount)

/-- `slash_publisher`: `require!(slash_amount <= stake)`,
`stake.checked_sub(slash_amount)`, reputation zeroed unconditionally, and
`slashed := true, active := false` exactly when the new stake is 0; the
slashed amount goes to the treasury (collaborator). -/
def slash_publisher (p : Publisher) (slash_amount : Nat) :
    Except ErrorCode Publisher :=
  if slash_amount > p.stake then .error .InsufficientStake
  else
    match checked_sub64 p.stake slash_amount with
    | none => .error .Overflow
    | some newStake =>
      let p := { p with stake := newStake, reputation_score := 0 }
      if p.stake = 0 then .ok { p with slashed := true, active := false }
      else .ok p

/-- `withdraw_stake`: `require!(!slashed)`, then zero the stake, set
`active := false` and transfer the full stake back (collaborator); the
second component is the amount transferred. -/
def withdraw_stake (p : Publisher) : Except ErrorCode (Publisher × Nat) :=
  if p.slashed then .error .PublisherSlashed
  else .ok ({ p with stake := 0, active := false }, p.stake)

/-- The publisher-ledger operations in scope, for reasoning about
sequences of calls on one `Publisher` account. -/
inductive PubOp where
  | record (accepted : Bool)
  | distribute (reg : PublisherRegistry) (amount : Nat)
  | slash (slash_amount : Nat)
  | withdrawStake
deriving Repr

/-- Apply one operation to a publisher; a failing call leaves the
account unchanged (Anchor rolls the transaction back). -/
def applyPubOp (op : PubOp) (p : Publisher) : Publisher :=
  match op with
  | .record accepted => record_alert_submission accepted p
  | .distribute reg amount =>
    match distribute_revenue reg p amount with
    | .ok r => r.1
    | .error _ => p
  | .slash slash_amount =>
    match slash_publisher p slash_amount with
    | .ok q => q
    | .error _ => p
  | .withdrawStake =>
    match withdraw_stake p with
    | .ok r => r.1
    | .error _ => p

/-- Apply a sequence of operations in order. -/
def applyPubOps (ops : List PubOp) (p : Publisher) : Publisher :=
  ops.foldl (fun q op => applyPubOp op q) p

end publisher_registry

namespace alert_registry

/-- `ErrorCode` of `programs/alerts/src/lib.rs`. -/
inductive ErrorCode where
  | AlertIdTooLong
  | ChannelNameTooLong
  | InvalidPriority
  | InvalidImpactScore
  | UnauthorizedPublisher
deriving DecidableEq, Repr

/-- `AlertRegistry` account of the alerts program. -/
structure AlertRegistry where
  authority : Pubkey
  total_alerts : Nat         -- u64
  bump : Nat                 -- u8
deriving DecidableEq, Repr

/-- `Alert` account of the alerts program. -/
structure Alert where
  alert_id : String          -- max 64 bytes
  channel : String           -- max 32 bytes
  content_hash : Nat         -- [u8; 32] digest, opaque
  publisher : Pubkey
  timestamp : Int            -- i64
  priority : Nat             -- u8, 0-3
  impact_score : Nat         -- u8, 0-10
  delivery_count : Nat       -- u64
  bump : Nat                 -- u8
deriving DecidableEq, Repr

/-- `AlertDelivery` account of the alerts program; `alert` is the alert
account's address, derived from its `alert_id`. -/
structure AlertDelivery where
  alert : String
  subscriber : Pubkey
  timestamp : Int            -- i64
  bump : Nat                 -- u8
deriving DecidableEq, Repr

/-- `register_alert`: validates the id and channel byte lengths and the
priority/impact domains, then creates the `Alert` (stamped with the caller
and the clock, `delivery_count = 0`) and increments the registry's
`total_alerts` (unchecked `+=`). -/
def register_alert (registry : AlertRegistry) (publisher : Pubkey)
    (alert_id channel : String) (content_hash : Nat)
    (priority impact_score : Nat) (now : Int) :
    Except ErrorCode (Alert × AlertRegistry) :=
  if alert_id.utf8ByteSize > 64 then .error .AlertIdTooLong
  else if channel.utf8ByteSize > 32 then .error .ChannelNameTooLong
  else if priority > 3 then .error .InvalidPriority
  else if impact_score > 10 then .error .InvalidImpactScore
  else
    .ok ({ alert_id := alert_id, channel := channel,
           content_hash := content_hash, publisher := publisher,
           timestamp := now, priority := priority,
           impact_score := impact_score, delivery_count := 0, bump := 0 },
         { registry with total_alerts := wrap64 (registry.total_alerts + 1) })

/-- `record_delivery`: `alert.delivery_count += 1` (unchecked `+=`, so
wrapping at the `u64` width) and the appended `AlertDelivery` record.
The instruction has no failure path of its own. -/
def record_delivery (alert : Alert) (subscriber : Pubkey) (now : Int) :
    Alert × AlertDelivery :=
  ({ alert with delivery_count := wrap64 (alert.delivery_count + 1) },
   { alert := alert.alert_id, subscriber := subscriber,
     timestamp := now, bump := 0 })

/-- `verify_alert`: pure read comparing the stored hash with the expected
one. -/
def verify_alert (alert : Alert) (expected_hash : Nat) : Bool :=
  alert.content_hash = expected_hash

end alert_registry

example : subscription_registry.fee_split 10 3000 = .ok (3, 7) := rfl

open subscription_registry publisher_registry alert_registry

/-! ## Extraction lemmas

Characterisations of the successful runs of each fallible instruction,
read off the branch structure of the definitions above. -/

/-- Decoding a successful `checked_add64`. -/
lemma checked_add64_some (a b c : Nat) (h : checked_add64 a b = some c) :
    c = a + b ∧ a + b ≤ U64_MAX := by
  unfold checked_add64 at h
  split at h
  · exact ⟨(Option.some.injEq _ _ ▸ h).symm, by assumption⟩
  · exact absurd h (by simp)

/-- Decoding a successful `checked_sub64`. -/
lemma checked_sub64_some (a b c : Nat) (h : checked_sub64 a b = some c) :
    b ≤ a ∧ c = a - b := by
  unfold checked_sub64 at h
  split at h
  · exact ⟨by assumption, (Option.some.injEq _ _ ▸ h).symm⟩
  · exact absurd h (by simp)

/-- Decoding a successful `checked_mul128`. -/
lemma checked_mul128_some (a b c : Nat) (h : checked_mul128 a b = some c) :
    c = a * b ∧ a * b ≤ U128_MAX := by
  unfold checked_mul128 at h
  split at h
  · exact ⟨(Option.some.injEq _ _ ▸ h).symm, by assumption⟩
  · exact absurd h (by simp)

/-- Decoding a successful `checked_div128`. -/
lemma checked_div128_some (a b c : Nat) (h : checked_div128 a b = some c) :
    c = a / b ∧ b ≠ 0 := by
  unfold checked_div128 at h
  split at h
  · exact absurd h (by simp)
  · exact ⟨(Option.some.injEq _ _ ▸ h).symm, by assumption⟩

/-- A successful `fee_split` returns the 64-bit truncation of the floored
fee together with the exact remainder to the price. -/
lemma fee_split_ok_props (price bps tf pa : Nat)
    (h : fee_split price bps = .ok (tf, pa)) :
    tf = (price * bps / 10000) % 2 ^ 64 ∧ tf ≤ price ∧ tf + pa = price := by
  unfold fee_split at h
  rcases hm : checked_mul128 price bps with _ | prod
  · simp only [hm] at h
    exact Except.noConfusion h
  · simp only [hm] at h
    rcases hd : checked_div128 prod 10000 with _ | q
    · simp only [hd] at h
      exact Except.noConfusion h
    · simp only [hd] at h
      rcases hs : checked_sub64 price (cast_u64 q) with _ | pa'
      · simp only [hs] at h
        exact Except.noConfusion h
      · simp only [hs, Except.ok.injEq, Prod.mk.injEq] at h
        obtain ⟨h1, h2⟩ := h
        obtain ⟨hprod, -⟩ := checked_mul128_some _ _ _ hm
        obtain ⟨hdq, -⟩ := checked_div128_some _ _ _ hd
        obtain ⟨hle, hpa'⟩ := checked_sub64_some _ _ _ hs
        subst hprod
        subst hdq
        unfold cast_u64 at hle hpa' h1
        omega

/-- What a successful `charge_for_alert` run tells us about all three
resulting accounts. -/
lemma charge_for_alert_ok (cfg : ProtocolConfig) (s : Subscriber)
    (ah : Nat) (t : Int) (s' : Subscriber) (r : DeliveryReceipt)
    (cfg' : ProtocolConfig)
    (hok : charge_for_alert cfg s ah t = .ok (s', r, cfg')) :
    s.active = true ∧ cfg.price_per_alert ≤ s.balance
    ∧ s'.balance = s.balance - cfg.price_per_alert
    ∧ s'.alerts_received = wrap64 (s.alerts_received + 1)
    ∧ s'.owner = s.owner ∧ s'.channels = s.channels
    ∧ s'.created_at = s.created_at ∧ s'.active = s.active
    ∧ s'.bump = s.bump ∧ s'.vault_bump = s.vault_bump
    ∧ r.subscriber = s.owner ∧ r.alert_hash = ah
    ∧ r.amount_charged = cfg.price_per_alert ∧ r.timestamp = t
    ∧ cfg'.total_revenue = cfg.total_revenue + cfg.price_per_alert
    ∧ cfg'.total_alerts_delivered = wrap64 (cfg.total_alerts_delivered + 1)
    ∧ cfg'.total_subscribers = cfg.total_subscribers
    ∧ cfg'.price_per_alert = cfg.price_per_alert
    ∧ cfg'.treasury_fee_bps = cfg.treasury_fee_bps
    ∧ cfg'.authority = cfg.authority ∧ cfg'.usdc_mint = cfg.usdc_mint
    ∧ cfg'.treasury = cfg.treasury ∧ cfg'.bump = cfg.bump
    ∧ ∃ tf pa, fee_split cfg.price_per_alert cfg.treasury_fee_bps
        = .ok (tf, pa) := by
  unfold charge_for_alert at hok
  cases hact : s.active with
  | false => simp [hact] at hok
  | true =>
    by_cases hbal : s.balance < cfg.price_per_alert
    · simp [hact, hbal] at hok
    · simp only [hact, Bool.not_true, Bool.false_eq_true, if_false, hbal,
        ite_false] at hok
      rcases hfs : fee_split cfg.price_per_alert cfg.treasury_fee_bps
        with e | ⟨tf, pa⟩
      · simp only [hfs] at hok
        exact Except.noConfusion hok
      · simp only [hfs] at hok
        rcases hsub : checked_sub64 s.balance cfg.price_per_alert
          with _ | newBalance
        · simp only [hsub] at hok
          exact Except.noConfusion hok
        · simp only [hsub] at hok
          rcases hrev : checked_add64 cfg.total_revenue cfg.price_per_alert
            with _ | newRevenue
          · simp only [hrev] at hok
            exact Except.noConfusion hok
          · simp only [hrev, Except.ok.injEq, Prod.mk.injEq] at hok
            obtain ⟨hs', hr, hcfg'⟩ := hok
            have hle : cfg.price_per_alert ≤ s.balance := by omega
            obtain ⟨-, hnb⟩ := checked_sub64_some _ _ _ hsub
            obtain ⟨hnr, -⟩ := checked_add64_some _ _ _ hrev
            subst hs'
            subst hr
            subst hcfg'
            exact ⟨rfl, hle, hnb, rfl, rfl, rfl, rfl, rfl, rfl, rfl, rfl,
              rfl, rfl, rfl, hnr, rfl, rfl, rfl, rfl, rfl, rfl, rfl, rfl,
              tf, pa, rfl⟩

/-- What a successful `slash_publisher` run tells us about the resulting
publisher record. -/
lemma slash_publisher_ok (p : Publisher) (a : Nat) (q : Publisher)
    (h : slash_publisher p a = .ok q) :
    a ≤ p.stake ∧ q.stake = p.stake - a ∧ q.reputation_score = 0
    ∧ q.owner = p.owner ∧ q.name = p.name ∧ q.metadata_uri = p.metadata_uri
    ∧ q.alerts_submitted = p.alerts_submitted
    ∧ q.alerts_accepted = p.alerts_accepted
    ∧ q.total_earnings = p.total_earnings
    ∧ q.registered_at = p.registered_at ∧ q.bump = p.bump
    ∧ (q.stake = 0 → q.slashed = true ∧ q.active = false)
    ∧ (q.stake ≠ 0 → q.slashed = p.slashed ∧ q.active = p.active) := by
  unfold slash_publisher at h
  by_cases hgt : a > p.stake
  · simp [hgt] at h
  · have hle : a ≤ p.stake := by omega
    simp only [hgt, if_false, ite_false] at h
    rcases hsub : checked_sub64 p.stake a with _ | newStake
    · simp only [hsub] at h
      exact Except.noConfusion h
    · simp only [hsub] at h
      obtain ⟨-, hns⟩ := checked_sub64_some _ _ _ hsub
      by_cases h0 : newStake = 0
      · simp only [h0, ite_true, if_pos, Except.ok.injEq] at h
        subst h
        refine ⟨hle, ?_, rfl, rfl, rfl, rfl, rfl, rfl, rfl,
          rfl, rfl, fun _ => ⟨rfl, rfl⟩, fun hne => absurd rfl hne⟩
        show (0 : Nat) = p.stake - a
        omega
      · simp only [h0, ite_false, if_neg, Except.ok.injEq] at h
        subst h
        refine ⟨hle, hns, rfl, rfl, rfl, rfl, rfl, rfl, rfl,
          rfl, rfl, fun h' => absurd h' h0, fun _ => ⟨rfl, rfl⟩⟩

/-- `slash_publisher` with `slash_amount > stake` fails with
`InsufficientStake`. -/
lemma slash_publisher_err (p : Publisher) (a : Nat) (h : p.stake < a) :
    slash_publisher p a = .error .InsufficientStake := by
  unfold slash_publisher
  simp [h]

/-- A successful `publisher_share` is the 64-bit truncation of the floored
share. -/
lemma publisher_share_ok_props (amount bps pa : Nat)
    (h : publisher_share amount bps = .ok pa) :
    pa = (amount * bps / 10000) % 2 ^ 64 := by
  unfold publisher_share at h
  rcases hm : checked_mul128 amount bps with _ | prod
  · simp only [hm] at h
    exact Except.noConfusion h
  · simp only [hm] at h
    rcases hd : checked_div128 prod 10000 with _ | q
    · simp only [hd] at h
      exact Except.noConfusion h
    · simp only [hd, Except.ok.injEq] at h
      obtain ⟨hprod, -⟩ := checked_mul128_some _ _ _ hm
      obtain ⟨hdq, -⟩ := checked_div128_some _ _ _ hd
      subst hprod
      subst hdq
      unfold cast_u64 at h
      omega

/-- What a successful `distribute_revenue` run tells us. -/
lemma distribute_revenue_ok (reg : PublisherRegistry) (p : Publisher)
    (amount : Nat) (p' : Publisher) (reg' : PublisherRegistry) (pa : Nat)
    (hok : distribute_revenue reg p amount = .ok (p', reg', pa)) :
    p.active = true ∧ p.slashed = false
    ∧ publisher_share amount reg.publisher_share_bps = .ok pa
    ∧ p'.total_earnings = p.total_earnings + pa
    ∧ p'.stake = p.stake ∧ p'.reputation_score = p.reputation_score
    ∧ p'.active = p.active ∧ p'.slashed = p.slashed
    ∧ reg'.total_payouts = reg.total_payouts + pa
    ∧ reg'.publisher_share_bps = reg.publisher_share_bps
    ∧ reg'.min_stake = reg.min_stake := by
  unfold distribute_revenue at hok
  cases hact : p.active with
  | false => simp [hact] at hok
  | true =>
    cases hsl : p.slashed with
    | true => simp [hact, hsl] at hok
    | false =>
      simp only [hact, Bool.not_true, Bool.false_eq_true, if_false, hsl,
        ite_false] at hok
      rcases hps : publisher_share amount reg.publisher_share_bps
        with e | v
      · simp only [hps] at hok
        exact Except.noConfusion hok
      · simp only [hps] at hok
        rcases he : checked_add64 p.total_earnings v with _ | newEarnings
        · simp only [he] at hok
          exact Except.noConfusion hok
        · simp only [he] at hok
          rcases hp : checked_add64 reg.total_payouts v with _ | newPayouts
          · simp only [hp] at hok
            exact Except.noConfusion hok
          · simp only [hp, Except.ok.injEq, Prod.mk.injEq] at hok
            obtain ⟨hp', hreg', hpa⟩ := hok
            obtain ⟨hne, -⟩ := checked_add64_some _ _ _ he
            obtain ⟨hnp, -⟩ := checked_add64_some _ _ _ hp
            subst hpa
            subst hp'
            subst hreg'
            exact ⟨rfl, rfl, rfl, hne, rfl, rfl, rfl, rfl, hnp, rfl, rfl⟩

/-- C9: a successful `deposit(amount)` followed by `withdraw(amount)` with no
intervening charge returns the balance to exactly its prior value (and
touches no other field: the result is the original subscriber). -/
theorem deposit_withdraw_roundtrip (s : Subscriber) (amount : Nat)
    (s' : Subscriber) (h : deposit s amount = .ok s') :
    withdraw s' amount = .ok { s' with balance := s.balance } := by
  unfold deposit checked_add64 at h
  by_cases h0 : amount = 0
  · simp [h0] at h
  · by_cases hle : s.balance + amount ≤ U64_MAX
    · simp only [h0, if_false, if_pos hle] at h
      simp only [Except.ok.injEq] at h
      subst h
      unfold withdraw checked_sub64
      have h1 : ¬ (s.balance + amount < amount) := by omega
      have h2 : amount ≤ s.balance + amount := by omega
      have h3 : s.balance + amount - amount = s.balance := by omega
      simp [h1, h2, h3]
    · simp [h0, hle] at h

/-- C9 witness: deposit 40 onto balance 100, withdraw 40, back to 100. -/
def subW9 : Subscriber :=
  ⟨7, 0, 100, 0, 0, true, 0, 0⟩

theorem deposit_withdraw_roundtrip_witness :
    withdraw { subW9 with balance := 140 } 40
      = .ok { { subW9 with balance := 140 } with balance := subW9.balance } :=
  deposit_withdraw_roundtrip subW9 40 { subW9 with balance := 140 } rfl


/-- C6: the reputation score stays in [0,1000] (the lower bound is the `Nat`
model of `u16`, where `saturating_sub` cannot go below 0): any
`record_alert_submission` from a score ≤ 1000 lands ≤ 1000, an accepted
submission from 1000 stays at 1000, a rejected submission from 0 stays at 0,
`register_publisher` initialises the score to 500, and a successful
`slash_publisher` zeroes it. -/
theorem reputation_clamped (p : Publisher) (b : Bool)
    (hrep : p.reputation_score ≤ 1000) :
    (record_alert_submission b p).reputation_score ≤ 1000
    ∧ (p.reputation_score = 1000 →
        (record_alert_submission true p).reputation_score = 1000)
    ∧ (p.reputation_score = 0 →
        (record_alert_submission false p).reputation_score = 0)
    ∧ (∀ reg owner name uri now q r,
        register_publisher reg owner name uri now = .ok (q, r) →
        q.reputation_score = 500)
    ∧ (∀ a q, slash_publisher p a = .ok q → q.reputation_score = 0) := by
  refine ⟨?_, ?_, ?_, ?_, ?_⟩
  · cases b <;> (simp [record_alert_submission, U16_MAX]; try omega)
  · intro h1000
    simp [record_alert_submission, U16_MAX, h1000]
  · intro h0
    simp [record_alert_submission, h0]
  · intro reg owner name uri now q r hreg
    unfold register_publisher at hreg
    split at hreg
    · exact absurd hreg (by simp)
    · split at hreg
      · exact absurd hreg (by simp)
      · simp only [Except.ok.injEq, Prod.mk.injEq] at hreg
        rw [← hreg.1]
  · intro a q hq
    exact (slash_publisher_ok p a q hq).2.2.1

/-- C6 witness: a publisher at the cap. -/
def pubW6 : Publisher :=
  ⟨3, "pub", "uri", 1000, 1000, 0, 0, 0, 0, true, false, 0⟩

theorem reputation_clamped_witness :
    (record_alert_submission true pubW6).reputation_score = 1000 :=
  (reputation_clamped pubW6 true (by decide)).2.1 rfl

/-- C8: `slash_publisher(slash_amount)` with `slash_amount ≤ stake` (on a
registered, non-slashed publisher) subtracts the amount from the stake,
zeroes the reputation unconditionally, and sets `slashed = true` together
with `active = false` exactly when the resulting stake is 0; with
`slash_amount > stake` it fails with `InsufficientStakeError` and no
mutation persists. -/
theorem slash_spec (p : Publisher) (a : Nat) (q : Publisher)
    (hA : p.active = true) (hS : p.slashed = false) :
    (slash_publisher p a = .ok q →
      q.stake = p.stake - a ∧ q.reputation_score = 0
      ∧ (q.slashed = true ↔ q.stake = 0)
      ∧ (q.active = false ↔ q.stake = 0))
    ∧ (p.stake < a → slash_publisher p a = .error .InsufficientStake) := by
  constructor
  · intro hok
    obtain ⟨-, hstake, hrep, -, -, -, -, -, -, -, -, hzero, hnonzero⟩ :=
      slash_publisher_ok p a q hok
    refine ⟨hstake, hrep, ?_, ?_⟩
    · constructor
      · intro hsl
        by_cases h0 : q.stake = 0
        · exact h0
        · obtain ⟨hsl', -⟩ := hnonzero h0
          rw [hsl] at hsl'
          exact absurd hsl'.symm (by simp [hS])
      · intro h0
        exact (hzero h0).1
    · constructor
      · intro hin
        by_cases h0 : q.stake = 0
        · exact h0
        · obtain ⟨-, hact'⟩ := hnonzero h0
          rw [hin] at hact'
          exact absurd hact'.symm (by simp [hA])
      · intro h0
        exact (hzero h0).2
  · intro hlt
    exact slash_publisher_err p a hlt

/-- C8 witness: stake 5, full slash of 5 lands in the terminal state, and
over-slashing by 7 fails. -/
def pubW8 : Publisher :=
  ⟨8, "w8", "u8", 5, 500, 0, 0, 0, 0, true, false, 0⟩

theorem slash_spec_witness :
    slash_publisher pubW8 7 = .error .InsufficientStake :=
  (slash_spec pubW8 7 pubW8 rfl rfl).2 (by decide)

/-- C7: a publisher whose stake reaches exactly 0 via `slash_publisher` is
left with `slashed = true`, `active = false` and `reputation_score = 0`, and
after any further sequence of in-scope operations it is still slashed, every
`withdraw_stake` on it fails with `SlashedError`, and a failing
`withdraw_stake` leaves the record unchanged. -/
theorem slash_terminal_state (p : Publisher) (a : Nat) (q : Publisher)
    (h : slash_publisher p a = .ok q) (h0 : q.stake = 0) :
    q.slashed = true ∧ q.active = false ∧ q.reputation_score = 0
    ∧ ∀ l : List PubOp,
        (applyPubOps l q).slashed = true
        ∧ withdraw_stake (applyPubOps l q) = .error .PublisherSlashed
        ∧ applyPubOp .withdrawStake (applyPubOps l q) = applyPubOps l q := by
  obtain ⟨-, -, hrep, -, -, -, -, -, -, -, -, hzero, -⟩ :=
    slash_publisher_ok p a q h
  obtain ⟨hsl, hact⟩ := hzero h0
  have hwd : ∀ r : Publisher, r.slashed = true →
      withdraw_stake r = .error .PublisherSlashed := by
    intro r hr
    unfold withdraw_stake
    simp [hr]
  have hop : ∀ (op : PubOp) (r : Publisher), r.slashed = true →
      (applyPubOp op r).slashed = true := by
    intro op r hr
    cases op with
    | record accepted =>
      cases accepted <;> simp [applyPubOp, record_alert_submission, hr]
    | distribute reg amount =>
      rcases hd : distribute_revenue reg r amount with e | ⟨r', reg', pa⟩
      · simp [applyPubOp, hd, hr]
      · obtain ⟨-, hsl', -⟩ := distribute_revenue_ok reg r amount r' reg' pa hd
        rw [hr] at hsl'
        exact absurd hsl' (by simp)
    | slash a2 =>
      rcases hd : slash_publisher r a2 with e | r'
      · simp [applyPubOp, hd, hr]
      · obtain ⟨-, -, -, -, -, -, -, -, -, -, -, hz, hnz⟩ :=
          slash_publisher_ok r a2 r' hd
        simp only [applyPubOp, hd]
        by_cases hr0 : r'.stake = 0
        · exact (hz hr0).1
        · rw [(hnz hr0).1]
          exact hr
    | withdrawStake =>
      simp [applyPubOp, hwd r hr, hr]
  have hops : ∀ (l : List PubOp) (r : Publisher), r.slashed = true →
      (applyPubOps l r).slashed = true := by
    intro l
    induction l with
    | nil => intro r hr; exact hr
    | cons op rest ih =>
      intro r hr
      exact ih (applyPubOp op r) (hop op r hr)
  refine ⟨hsl, hact, hrep, fun l => ?_⟩
  have hsl' := hops l q hsl
  refine ⟨hsl', hwd _ hsl', ?_⟩
  simp [applyPubOp, hwd _ hsl']

/-- C7 witness: a fully slashed publisher stays slashed and cannot withdraw,
also after a further recorded submission. -/
def pubW7 : Publisher :=
  ⟨9, "w7", "u7", 5, 500, 0, 0, 0, 0, true, false, 0⟩

def pubW7s : Publisher :=
  ⟨9, "w7", "u7", 0, 0, 0, 0, 0, 0, false, true, 0⟩

theorem slash_terminal_state_witness :
    withdraw_stake (applyPubOps [PubOp.record true] pubW7s)
      = .error .PublisherSlashed :=
  (((slash_terminal_state pubW7 5 pubW7s rfl rfl).2.2.2
      [PubOp.record true]).2.1)

/-- Each successful charge deducts exactly the receipted amount. -/
lemma charge_ok_balance (cfg : ProtocolConfig) (s : Subscriber)
    (ah : Nat) (t : Int) (s' : Subscriber) (r : DeliveryReceipt)
    (cfg' : ProtocolConfig)
    (hok : charge_for_alert cfg s ah t = .ok (s', r, cfg')) :
    s'.balance + r.amount_charged = s.balance := by
  obtain ⟨-, hle, hbal, -, -, -, -, -, -, -, -, -, hamt, -⟩ :=
    charge_for_alert_ok cfg s ah t s' r cfg' hok
  rw [hbal, hamt]
  omega

/-- C2: over any sequence of `charge_for_alert` attempts the final balance
plus the total successfully charged equals the initial balance (so in the
`u64` model no charge ever takes the balance below zero, and the witnessed
non-negative balance always equals initial balance minus the sum of the
successful charges); and an underfunded active subscriber is rejected with
`InsufficientBalanceError` before any mutation. -/
theorem charge_balance_accounting (cfg : ProtocolConfig) (s : Subscriber)
    (l : List (Nat × Int)) :
    (runCharges cfg s l).1.balance + (runCharges cfg s l).2.2 = s.balance
    ∧ (∀ ah t, s.active = true → s.balance < cfg.price_per_alert →
        charge_for_alert cfg s ah t = .error .InsufficientBalance) := by
  constructor
  · induction l generalizing cfg s with
    | nil => simp [runCharges]
    | cons p rest ih =>
      obtain ⟨ah, t⟩ := p
      rcases hc : charge_for_alert cfg s ah t with e | ⟨s', r, cfg'⟩
      · simp only [runCharges, hc]
        exact ih cfg s
      · simp only [runCharges, hc]
        have hstep := charge_ok_balance cfg s ah t s' r cfg' hc
        have hrest := ih cfg' s'
        omega
  · intro ah t hact hbal
    unfold charge_for_alert
    simp [hact, hbal]

/-- C2 witness: price 10 against balance 100 over an empty run, and an
underfunded subscriber (balance 5) is rejected. -/
def cfgW2 : ProtocolConfig := ⟨0, 0, 0, 10, 3000, 0, 0, 0, 0⟩

def subW2 : Subscriber := ⟨11, 0, 5, 0, 0, true, 0, 0⟩

theorem charge_balance_accounting_witness :
    charge_for_alert cfgW2 subW2 0 0 = .error .InsufficientBalance :=
  (charge_balance_accounting cfgW2 subW2 []).2 0 0 rfl (by decide)

/-- C10: `charge_for_alert` never reads the channel bitmap: replacing the
`channels` field by any value `c` before the call gives exactly the same
outcome — the same error on failure, and on success the same receipt, the
same config update and the same subscriber mutation, with only the
`channels` field carrying the replaced value. -/
theorem charge_channels_independent (cfg : ProtocolConfig) (s : Subscriber)
    (c : Nat) (ah : Nat) (t : Int) :
    charge_for_alert cfg { s with channels := c } ah t
      = (charge_for_alert cfg s ah t).map
          (fun out => ({ out.1 with channels := c }, out.2)) := by
  obtain ⟨ow, ch, bal, ar, ca, act, bp, vb⟩ := s
  unfold charge_for_alert
  cases act with
  | false => rfl
  | true =>
    by_cases hbal : bal < cfg.price_per_alert
    · simp [hbal, Except.map]
    · simp only [hbal, ite_false, if_neg]
      rcases hfs : fee_split cfg.price_per_alert cfg.treasury_fee_bps
        with e | ⟨tf, pa⟩ <;> simp only [hfs]
      · rfl
      · rcases hsub : checked_sub64 bal cfg.price_per_alert
          with _ | nb <;> simp only [hsub]
        · rfl
        · rcases hrev : checked_add64 cfg.total_revenue cfg.price_per_alert
            with _ | nr <;> simp only [hrev]
          · rfl
          · rfl

/-- Concrete config for the C1 counterexample: `price_per_alert = 2^63`,
`treasury_fee_bps = 40000` (the u16 field is never validated against
10000). -/
def cfgC1 : ProtocolConfig := ⟨0, 0, 0, 2 ^ 63, 40000, 0, 0, 0, 0⟩

def subC1 : Subscriber := ⟨12, 0, 2 ^ 63, 0, 0, true, 0, 0⟩

/-- C1 counterexample: a `charge_for_alert` call that succeeds although the
computed `treasury_fee` is NOT `floor(price * treasury_fee_bps / 10000)`:
the floor is `2^65`, the `as u64` cast truncates it to `0`, the checked
subtraction then succeeds, and the charge goes through. -/
theorem charge_fee_not_floor_cex :
    fee_split cfgC1.price_per_alert cfgC1.treasury_fee_bps = .ok (0, 2 ^ 63)
    ∧ cfgC1.price_per_alert * cfgC1.treasury_fee_bps / 10000 = 2 ^ 65
    ∧ (0 : Nat) ≠ 2 ^ 65
    ∧ charge_for_alert cfgC1 subC1 0 0
        = .ok ({ subC1 with balance := 0, alerts_received := 1 },
               ⟨subC1.owner, 0, cfgC1.price_per_alert, 0, 0⟩,
               { cfgC1 with total_alerts_delivered := 1,
                            total_revenue := 2 ^ 63 }) := by
  refine ⟨rfl, by norm_num [cfgC1], by norm_num, rfl⟩

/-- C1 amended: for every succeeding `charge_for_alert` call the computed
`treasury_fee` is the 64-bit truncation
`floor(price * treasury_fee_bps / 10000) mod 2^64` (the floor itself
whenever it fits in 64 bits, in particular whenever
`treasury_fee_bps ≤ 10000`), `publisher_amount` is exactly
`price - treasury_fee`, and their sum is exactly `price`, so the split
itself never creates or destroys value. -/
theorem charge_fee_split_conservation (cfg : ProtocolConfig)
    (s : Subscriber) (ah : Nat) (t : Int)
    (out : Subscriber × DeliveryReceipt × ProtocolConfig)
    (hok : charge_for_alert cfg s ah t = .ok out) :
    fee_split cfg.price_per_alert cfg.treasury_fee_bps
      = .ok ((cfg.price_per_alert * cfg.treasury_fee_bps / 10000) % 2 ^ 64,
             cfg.price_per_alert
               - (cfg.price_per_alert * cfg.treasury_fee_bps / 10000) % 2 ^ 64)
    ∧ (cfg.price_per_alert * cfg.treasury_fee_bps / 10000) % 2 ^ 64
        + (cfg.price_per_alert
            - (cfg.price_per_alert * cfg.treasury_fee_bps / 10000) % 2 ^ 64)
        = cfg.price_per_alert := by
  obtain ⟨o1, o2, o3⟩ := out
  obtain ⟨-, -, -, -, -, -, -, -, -, -, -, -, -, -, -, -, -, -, -, -, -, -,
    -, tf, pa, hfs⟩ := charge_for_alert_ok cfg s ah t o1 o2 o3 hok
  obtain ⟨htf, hle, hsum⟩ := fee_split_ok_props _ _ _ _ hfs
  subst htf
  constructor
  · rw [hfs]
    have hpa : pa = cfg.price_per_alert
        - (cfg.price_per_alert * cfg.treasury_fee_bps / 10000) % 2 ^ 64 := by
      omega
    rw [hpa]
  · omega

/-- C1 witness: price 10, fee 3000 bps — split (3, 7), conserved. -/
def cfgW1 : ProtocolConfig := ⟨0, 0, 0, 10, 3000, 0, 0, 0, 0⟩

def subW1 : Subscriber := ⟨16, 0, 100, 0, 0, true, 0, 0⟩

theorem charge_fee_split_conservation_witness :
    fee_split cfgW1.price_per_alert cfgW1.treasury_fee_bps
      = .ok ((cfgW1.price_per_alert * cfgW1.treasury_fee_bps / 10000) % 2 ^ 64,
             cfgW1.price_per_alert
               - (cfgW1.price_per_alert * cfgW1.treasury_fee_bps / 10000)
                   % 2 ^ 64)
    ∧ (cfgW1.price_per_alert * cfgW1.treasury_fee_bps / 10000) % 2 ^ 64
        + (cfgW1.price_per_alert
            - (cfgW1.price_per_alert * cfgW1.treasury_fee_bps / 10000)
                % 2 ^ 64)
        = cfgW1.price_per_alert :=
  charge_fee_split_conservation cfgW1 subW1 0 0
    ({ subW1 with balance := 90, alerts_received := 1 },
     ⟨subW1.owner, 0, cfgW1.price_per_alert, 0, 0⟩,
     { cfgW1 with total_alerts_delivered := 1, total_revenue := 10 }) rfl

/-- Concrete registry for the C3/C5 counterexamples. -/
def regC3 : PublisherRegistry := ⟨0, 0, 1000, 40000, 0, 0, 0⟩

def pubC3 : Publisher := ⟨13, "p3", "u3", 1000, 500, 0, 0, 0, 0, true, false, 0⟩

/-- C3 counterexample: with `publisher_share_bps = 40000` and
`amount = 2^63` the floored share is `2^65`, which does not fit in 64 bits;
the `as u64` narrowing silently truncates it to `0` and `distribute_revenue`
SUCCEEDS (paying 0) instead of failing with `OverflowError`. -/
theorem distribute_cast_unchecked_cex :
    distribute_revenue regC3 pubC3 (2 ^ 63) = .ok (pubC3, regC3, 0)
    ∧ (2 ^ 63 : Nat) * regC3.publisher_share_bps / 10000 = 2 ^ 65
    ∧ U64_MAX < 2 ^ 65 := by
  refine ⟨rfl, by norm_num [regC3], by norm_num [U64_MAX]⟩

/-- C3 amended: for any in-range inputs (`amount` a u64 value, `bps` a u16
value) the widened multiply and the division by 10000 can never overflow
`u128` — so the `checked_mul`/`checked_div` error paths are unreachable and
the computation always succeeds — while the final narrowing back to 64 bits
is a plain truncating `as u64` cast: a quotient that cannot be represented
is reduced modulo `2^64` rather than failing with `OverflowError`. -/
theorem publisher_share_total (amount bps : Nat) (hamt : amount ≤ U64_MAX)
    (hbps : bps ≤ U16_MAX) :
    publisher_share amount bps = .ok ((amount * bps / 10000) % 2 ^ 64) := by
  unfold publisher_share checked_mul128 checked_div128 cast_u64
  have hm : amount * bps ≤ U128_MAX := by
    have h1 : amount * bps ≤ U64_MAX * U16_MAX := Nat.mul_le_mul hamt hbps
    have h2 : U64_MAX * U16_MAX ≤ U128_MAX := by
      norm_num [U64_MAX, U16_MAX, U128_MAX]
    omega
  simp [hm]

theorem publisher_share_total_witness :
    publisher_share 7 5000 = .ok ((7 * 5000 / 10000) % 2 ^ 64) :=
  publisher_share_total 7 5000 (by norm_num [U64_MAX])
    (by norm_num [U16_MAX])

/-- Concrete registry for the C5 counterexample: share 20000 bps (200%). -/
def regC5 : PublisherRegistry := ⟨0, 0, 1000, 20000, 0, 0, 0⟩

def pubC5 : Publisher := ⟨14, "p5", "u5", 1000, 500, 0, 0, 0, 0, true, false, 0⟩

/-- C5 counterexample: with `publisher_share_bps = 20000` (never validated
against 10000), `distribute_revenue(10)` computes `publisher_amount = 20`,
which EXCEEDS the distributed amount, refuting `publisher_amount ≤ amount`
for arbitrary configured share. -/
theorem distribute_share_exceeds_amount_cex :
    distribute_revenue regC5 pubC5 10
      = .ok ({ pubC5 with total_earnings := 20 },
             { regC5 with total_payouts := 20 }, 20)
    ∧ ¬ ((20 : Nat) ≤ 10) := by
  refine ⟨rfl, by norm_num⟩

/-- C5 amended: whenever the configured `publisher_share_bps` is at most
10000 (a genuine fraction) and `amount` is a u64 value, every successful
`distribute_revenue(amount)` computes exactly
`publisher_amount = floor(amount * share_bps / 10000)` and this is at most
`amount`. -/
theorem distribute_share_floor_le (reg : PublisherRegistry) (p : Publisher)
    (amount : Nat) (out : Publisher × PublisherRegistry × Nat)
    (hbps : reg.publisher_share_bps ≤ 10000) (hamt : amount ≤ U64_MAX)
    (hok : distribute_revenue reg p amount = .ok out) :
    out.2.2 = amount * reg.publisher_share_bps / 10000
    ∧ out.2.2 ≤ amount := by
  obtain ⟨o1, o2, o3⟩ := out
  obtain ⟨-, -, hps, -⟩ := distribute_revenue_ok reg p amount o1 o2 o3 hok
  have hmod := publisher_share_ok_props _ _ _ hps
  have h1 : amount * reg.publisher_share_bps ≤ amount * 10000 :=
    Nat.mul_le_mul_left amount hbps
  have h2 : amount * reg.publisher_share_bps / 10000
      ≤ amount * 10000 / 10000 := Nat.div_le_div_right h1
  have h3 : amount * 10000 / 10000 = amount :=
    Nat.mul_div_cancel amount (by norm_num)
  have hq : amount * reg.publisher_share_bps / 10000 ≤ amount := by omega
  have hlt : amount * reg.publisher_share_bps / 10000 < 2 ^ 64 := by
    have : U64_MAX < 2 ^ 64 := by norm_num [U64_MAX]
    omega
  constructor
  · rw [hmod, Nat.mod_eq_of_lt hlt]
  · rw [hmod, Nat.mod_eq_of_lt hlt]
    exact hq

/-- C5 witness: the spec's own scenario `distribute_revenue(7)` at 5000 bps
pays `floor(3.5) = 3 ≤ 7`. -/
def regW5 : PublisherRegistry := ⟨0, 0, 1000, 5000, 0, 0, 0⟩

def pubW5 : Publisher := ⟨17, "w5", "u5", 1000, 500, 0, 0, 0, 0, true, false, 0⟩

theorem distribute_share_floor_le_witness :
    (3 : Nat) = 7 * regW5.publisher_share_bps / 10000 ∧ (3 : Nat) ≤ 7 :=
  distribute_share_floor_le regW5 pubW5 7
    ({ pubW5 with total_earnings := 3 }, { regW5 with total_payouts := 3 }, 3)
    (by norm_num [regW5]) (by norm_num [U64_MAX]) rfl

/-- Alert at the counter limit for the C4 counterexample. -/
def alertC4 : Alert := ⟨"a1", "ch", 0, 15, 0, 1, 5, 2 ^ 64 - 1, 0⟩

/-- C4 counterexample: `record_delivery` increments `delivery_count` with an
unchecked `+=`; at `u64::MAX` the call succeeds and the counter wraps to 0
instead of failing with `OverflowError` — the persisted value is incorrect
(`0 ≠ u64::MAX + 1`). -/
theorem counter_wrap_cex :
    alertC4.delivery_count = 2 ^ 64 - 1
    ∧ (record_delivery alertC4 0 0).1.delivery_count = 0
    ∧ (record_delivery alertC4 0 0).1.delivery_count
        ≠ alertC4.delivery_count + 1 := by
  refine ⟨rfl, rfl, by norm_num [record_delivery, alertC4, wrap64]⟩

/-- C4 amended: every addition/subtraction on a persisted MONEY field is
checked and fails rather than wrapping — `deposit`'s balance add fails with
`OverflowError` on exceeding u64, `withdraw`'s subtraction is guarded by
`InsufficientBalanceError` (so its checked sub cannot underflow),
`charge_for_alert`'s `total_revenue` add fails with `OverflowError`,
`distribute_revenue`'s `total_earnings` and `total_payouts` adds each fail
with `OverflowError`, and `slash_publisher`'s stake subtraction is guarded
by `InsufficientStakeError` — but every COUNTER increment
(`delivery_count`, `alerts_submitted`, `alerts_accepted`,
`alerts_received`, `total_alerts_delivered`, `total_alerts`,
`total_subscribers`, `total_publishers`) is an unchecked `+=` that wraps
modulo `2^64` rather than failing with `OverflowError`. -/
theorem checked_money_unchecked_counters :
    (∀ (s : Subscriber) (amount : Nat), 0 < amount →
        U64_MAX < s.balance + amount → deposit s amount = .error .Overflow)
    ∧ (∀ (s : Subscriber) (amount : Nat), s.balance < amount →
        withdraw s amount = .error .InsufficientBalance)
    ∧ (∀ (cfg : ProtocolConfig) (s : Subscriber) (ah : Nat) (t : Int)
          (tf pa : Nat),
        s.active = true → cfg.price_per_alert ≤ s.balance →
        fee_split cfg.price_per_alert cfg.treasury_fee_bps = .ok (tf, pa) →
        U64_MAX < cfg.total_revenue + cfg.price_per_alert →
        charge_for_alert cfg s ah t = .error .Overflow)
    ∧ (∀ (reg : PublisherRegistry) (p : Publisher) (amount pa : Nat),
        p.active = true → p.slashed = false →
        publisher_share amount reg.publisher_share_bps = .ok pa →
        U64_MAX < p.total_earnings + pa →
        distribute_revenue reg p amount = .error .Overflow)
    ∧ (∀ (reg : PublisherRegistry) (p : Publisher) (amount pa : Nat),
        p.active = true → p.slashed = false →
        publisher_share amount reg.publisher_share_bps = .ok pa →
        p.total_earnings + pa ≤ U64_MAX →
        U64_MAX < reg.total_payouts + pa →
        distribute_revenue reg p amount = .error .Overflow)
    ∧ (∀ (p : Publisher) (a : Nat), p.stake < a →
        slash_publisher p a = .error .InsufficientStake)
    ∧ (∀ (al : Alert) (sub : Pubkey) (t : Int),
        (record_delivery al sub t).1.delivery_count
          = (al.delivery_count + 1) % 2 ^ 64)
    ∧ (∀ (b : Bool) (p : Publisher),
        (record_alert_submission b p).alerts_submitted
          = (p.alerts_submitted + 1) % 2 ^ 64)
    ∧ (∀ p : Publisher,
        (record_alert_submission true p).alerts_accepted
          = (p.alerts_accepted + 1) % 2 ^ 64)
    ∧ (∀ cfg s ah t s' r cfg',
        charge_for_alert cfg s ah t = .ok (s', r, cfg') →
        s'.alerts_received = (s.alerts_received + 1) % 2 ^ 64
        ∧ cfg'.total_alerts_delivered
            = (cfg.total_alerts_delivered + 1) % 2 ^ 64)
    ∧ (∀ (registry : AlertRegistry) (pk : Pubkey) (id ch : String)
          (hsh pr im : Nat) (t : Int) (al : Alert) (reg' : AlertRegistry),
        register_alert registry pk id ch hsh pr im t = .ok (al, reg') →
        reg'.total_alerts = (registry.total_alerts + 1) % 2 ^ 64)
    ∧ (∀ (cfg : ProtocolConfig) (owner : Pubkey) (chs : List Nat) (t : Int)
          (sub : Subscriber) (cfg' : ProtocolConfig),
        create_subscriber cfg owner chs t = .ok (sub, cfg') →
        cfg'.total_subscribers = (cfg.total_subscribers + 1) % 2 ^ 64)
    ∧ (∀ (reg : PublisherRegistry) (owner : Pubkey) (nm uri : String)
          (t : Int) (q : Publisher) (reg' : PublisherRegistry),
        register_publisher reg owner nm uri t = .ok (q, reg') →
        reg'.total_publishers = (reg.total_publishers + 1) % 2 ^ 64) := by
  refine ⟨?_, ?_, ?_, ?_, ?_, ?_, ?_, ?_, ?_, ?_, ?_, ?_, ?_⟩
  · intro s amount h0 hov
    unfold deposit checked_add64
    have h1 : ¬ amount = 0 := by omega
    have h2 : ¬ (s.balance + amount ≤ U64_MAX) := by omega
    simp [h1, h2]
  · intro s amount hlt
    unfold withdraw
    simp [hlt]
  · intro cfg s ah t tf pa hact hle hfs hov
    unfold charge_for_alert
    have hb : ¬ s.balance < cfg.price_per_alert := by omega
    simp only [hact, Bool.not_true, Bool.false_eq_true, if_false, hb,
      ite_false, hfs]
    unfold checked_sub64 checked_add64
    have h2 : ¬ (cfg.total_revenue + cfg.price_per_alert ≤ U64_MAX) := by
      omega
    simp [hle, h2]
  · intro reg p amount pa hact hsl hps hov
    unfold distribute_revenue
    simp only [hact, Bool.not_true, Bool.false_eq_true, if_false, hsl,
      ite_false, hps]
    unfold checked_add64
    have h2 : ¬ (p.total_earnings + pa ≤ U64_MAX) := by omega
    simp [h2]
  · intro reg p amount pa hact hsl hps he hov
    unfold distribute_revenue
    simp only [hact, Bool.not_true, Bool.false_eq_true, if_false, hsl,
      ite_false, hps]
    unfold checked_add64
    have h2 : ¬ (reg.total_payouts + pa ≤ U64_MAX) := by omega
    simp [he, h2]
  · exact fun p a h => slash_publisher_err p a h
  · intro al sub t
    rfl
  · intro b p
    cases b <;> rfl
  · intro p
    rfl
  · intro cfg s ah t s' r cfg' hok
    obtain ⟨-, -, -, har, -, -, -, -, -, -, -, -, -, -, -, htd, -⟩ :=
      charge_for_alert_ok cfg s ah t s' r cfg' hok
    exact ⟨har, htd⟩
  · intro registry pk id ch hsh pr im t al reg' h
    unfold register_alert at h
    by_cases h1 : id.utf8ByteSize > 64
    · simp [h1] at h
    · by_cases h2 : ch.utf8ByteSize > 32
      · simp [h1, h2] at h
      · by_cases h3 : pr > 3
        · simp [h1, h2, h3] at h
        · by_cases h4 : im > 10
          · simp [h1, h2, h3, h4] at h
          · simp only [h1, h2, h3, h4, ite_false, if_neg,
              Except.ok.injEq, Prod.mk.injEq] at h
            rw [← h.2]
            rfl
  · intro cfg owner chs t sub cfg' h
    unfold create_subscriber at h
    by_cases h1 : chs.length > 4
    · simp [h1] at h
    · simp only [h1, ite_false, if_neg, Except.ok.injEq,
        Prod.mk.injEq] at h
      rw [← h.2]
      rfl
  · intro reg owner nm uri t q reg' h
    unfold register_publisher at h
    by_cases h1 : nm.utf8ByteSize > 64
    · simp [h1] at h
    · by_cases h2 : uri.utf8ByteSize > 200
      · simp [h1, h2] at h
      · simp only [h1, h2, ite_false, if_neg, Except.ok.injEq,
          Prod.mk.injEq] at h
        rw [← h.2]
        rfl

/-- C4 witness: a deposit that would overflow the u64 balance is rejected
with `OverflowError`. -/
def subW4 : Subscriber := ⟨18, 0, 2 ^ 64 - 1, 0, 0, true, 0, 0⟩

theorem checked_money_unchecked_counters_witness :
    deposit subW4 1 = .error .Overflow :=
  checked_money_unchecked_counters.1 subW4 1 (by norm_num)
    (by norm_num [subW4, U64_MAX])
